import Mathlib

/-!
Verification of `build/spectests.rs`, the build-time generator that turns
WebAssembly spec-test scripts into Rust test files.

The development is a shallow embedding of the generator:
* wabt's `Value` is a sum type; float variants carry the raw IEEE-754 bit
  pattern as a `Nat`, and the Rust float predicates (`is_nan`, `is_infinite`,
  `is_sign_negative`, `to_bits`) are defined bit-level from it.
* The generator state `WastTestGenerator` mirrors the Rust struct; the
  `HashMap<i32, Vec<String>>` of pending calls becomes a total function
  `Nat → List String` (absent key = `[]`, which is how the source reads it
  through `entry(..).or_insert(Vec::new())`), and the output `String` buffer
  becomes a list of structured `BufferItem`s, one constructor per `push_str`
  site, each carrying exactly the values interpolated into that site's
  format string.
* External collaborators (wabt's `wasm2wat`, f32/f64 `{:?}` decimal
  formatting of finite floats) are universally quantified function
  parameters: the claims under study never depend on their output.
-/

namespace Spectests

/-! ### Values (wabt::script::Value) -/

/-- wabt's `Value`. Rust stores `f32`/`f64` payloads; here the float
variants carry the raw bit pattern (`to_bits`) so that non-canonical NaN
payloads are preserved exactly. -/
inductive Value where
  | I32 (v : Int)
  | I64 (v : Int)
  | F32 (bits : Nat)
  | F64 (bits : Nat)
  deriving DecidableEq, Repr

/-- Exponent field of an f32 bit pattern (bits 23..30). -/
def f32_exp (b : Nat) : Nat := b / 2 ^ 23 % 2 ^ 8

/-- Mantissa field of an f32 bit pattern (bits 0..22). -/
def f32_mant (b : Nat) : Nat := b % 2 ^ 23

/-- Rust `f32::is_nan`: exponent all ones, mantissa nonzero. -/
def f32_is_nan (b : Nat) : Bool := f32_exp b == 255 && f32_mant b != 0

/-- Rust `f32::is_infinite`: exponent all ones, mantissa zero. -/
def f32_is_infinite (b : Nat) : Bool := f32_exp b == 255 && f32_mant b == 0

/-- Rust `f32::is_sign_negative`: sign bit (bit 31) set. -/
def f32_is_sign_negative (b : Nat) : Bool := b / 2 ^ 31 % 2 == 1

/-- Exponent field of an f64 bit pattern (bits 52..62). -/
def f64_exp (b : Nat) : Nat := b / 2 ^ 52 % 2 ^ 11

/-- Mantissa field of an f64 bit pattern (bits 0..51). -/
def f64_mant (b : Nat) : Nat := b % 2 ^ 52

/-- Rust `f64::is_nan`: exponent all ones, mantissa nonzero. -/
def f64_is_nan (b : Nat) : Bool := f64_exp b == 2047 && f64_mant b != 0

/-- Rust `f64::is_infinite`: exponent all ones, mantissa zero. -/
def f64_is_infinite (b : Nat) : Bool := f64_exp b == 2047 && f64_mant b == 0

/-- Rust `f64::is_sign_negative`: sign bit (bit 63) set. -/
def f64_is_sign_negative (b : Nat) : Bool := b / 2 ^ 63 % 2 == 1

/-- Semantics of the Rust expression `f32::from_bits(n)` for `n : u32`:
the resulting float's bit pattern (`to_bits`) is `n` itself. -/
def f32_from_bits_to_bits (n : Nat) : Nat := n % 2 ^ 32

/-- Semantics of the Rust expression `f64::from_bits(n)` for `n : u64`:
the resulting float's bit pattern (`to_bits`) is `n` itself. -/
def f64_from_bits_to_bits (n : Nat) : Nat := n % 2 ^ 64

/-- `wabt2rust_type` (spectests.rs:76): type-annotation token of a value. -/
def wabt2rust_type (v : Value) : String :=
  match v with
  | .I32 _ => "i32"
  | .I64 _ => "i64"
  | .F32 _ => "f32"
  | .F64 _ => "f64"

/-- `is_nan` (spectests.rs:85): true exactly for NaN-valued float values. -/
def is_nan (v : Value) : Bool :=
  match v with
  | .F32 b => f32_is_nan b
  | .F64 b => f64_is_nan b
  | _ => false

instance : Inhabited Value := ⟨.I32 0⟩

/-- wabt's `Action`: an invocation request (`Invoke`) or a global read
(`Get`). The generator only handles `Invoke`. -/
inductive Action where
  | Invoke (module : Option String) (field : String) (args : List Value)
  | Get (module : Option String) (field : String)
  deriving DecidableEq, Repr

/-- wabt's `CommandKind`. Module binaries (`ModuleBinary`) are byte lists. -/
inductive CommandKind where
  | Module (module : List Nat) (name : Option String)
  | AssertReturn (action : Action) (expected : List Value)
  | AssertReturnCanonicalNan (action : Action)
  | AssertReturnArithmeticNan (action : Action)
  | AssertTrap (action : Action) (message : String)
  | AssertInvalid (module : List Nat) (message : String)
  | AssertMalformed (module : List Nat) (message : String)
  | AssertUninstantiable (module : List Nat) (message : String)
  | AssertExhaustion (action : Action)
  | AssertUnlinkable (module : List Nat) (message : String)
  | Register (name : Option String) (as_name : String)
  | PerformAction (action : Action)
  deriving DecidableEq, Repr

/-- One structured buffer item per `push_str` site of the source; each
constructor carries exactly the values interpolated into that site's
format string. Items marked as tests render to a `#[test]` function.
* `banner` / `header`: the `BANNER` constant and the use-header emitted at
  the top of `consume` (spectests.rs:156-171).
* `line_marker line`: `"\n// Line {}\n"` (spectests.rs:174).
* `module_test module calls`: the aggregated `#[test] fn test_module_N`
  from `flush_module_calls` (spectests.rs:197); `calls` already carry the
  `"(&result_object);"` suffix the source maps on.
* `create_module module module_str`: `fn create_module_N` with the escaped
  wat fixture string (spectests.rs:222).
* `start_module_fn module`: `fn start_module_N` (spectests.rs:241).
* `assert_invalid_test` / `assert_malformed_test`: standalone `#[test]`
  `fn {command_name}_assert_invalid/_assert_malformed` over the raw binary
  (spectests.rs:260, 392).
* `invoke_fn name field args_types func_return args_values assertion`: the
  shared invoke-function format string used by `visit_action`,
  `visit_assert_return_canonical_nan` and
  `visit_assert_return_arithmetic_nan` (spectests.rs:297, 355, 451).
* `trap_test name module action_fn`: the standalone `#[test]` emitted by
  `visit_assert_trap` that creates its own instance via
  `create_module_{module}` and asserts `call_protected!` errors
  (spectests.rs:512). -/
inductive BufferItem where
  | banner
  | header (filename : String)
  | line_marker (line : Nat)
  | module_test (module : Nat) (calls : List String)
  | create_module (module : Nat) (module_str : String)
  | start_module_fn (module : Nat)
  | assert_invalid_test (name : String) (wasm_binary : List Nat)
  | assert_malformed_test (name : String) (wasm_binary : List Nat)
  | invoke_fn (name : String) (field : String) (args_types : List String)
      (func_return : String) (args_values : List String) (assertion : String)
  | trap_test (name : String) (module : Nat) (action_fn : String)
  deriving DecidableEq, Repr

/-- Does a buffer item render to a `#[test]` function? -/
def BufferItem.isTest : BufferItem → Bool
  | .module_test _ _ => true
  | .assert_invalid_test _ _ => true
  | .assert_malformed_test _ _ => true
  | .trap_test _ _ _ => true
  | _ => false

/-- The generator state (struct `WastTestGenerator`, spectests.rs:128).
`module_calls : HashMap<i32, Vec<String>>` is modelled as a total function
(absent key = `[]`, matching every read through
`entry(..).or_insert(Vec::new())`; `remove` sets the entry to `[]`). The
parsed `script_parser` stream is supplied to `consume` as a list of
`(line, kind)` pairs instead of being stored. -/
structure WastTestGenerator where
  last_module : Nat
  last_line : Nat
  command_no : Nat
  filename : String
  module_calls : Nat → List String
  buffer : List BufferItem

/-- `WastTestGenerator::new` (spectests.rs:139), minus the file read that
produces the directive stream. -/
def WastTestGenerator.new (filename : String) : WastTestGenerator :=
  { last_module := 0
    last_line := 0
    command_no := 0
    filename := filename
    module_calls := fun _ => []
    buffer := [] }

/-- `command_name` (spectests.rs:184): `format!("c{}_l{}", command_no, last_line)`. -/
def WastTestGenerator.command_name (g : WastTestGenerator) : String :=
  "c" ++ toString g.command_no ++ "_l" ++ toString g.last_line

/-- `module_calls.entry(module).or_insert(Vec::new()).push(call)`. -/
def push_module_call (g : WastTestGenerator) (module : Nat) (call : String) :
    WastTestGenerator :=
  { g with module_calls := fun m =>
      if m = module then g.module_calls m ++ [call] else g.module_calls m }

/-- `flush_module_calls` (spectests.rs:188): map the pending calls of
`module` to call statements, emit the aggregated test only when nonempty,
then remove the entry. -/
def flush_module_calls (g : WastTestGenerator) (module : Nat) : WastTestGenerator :=
  let calls := (g.module_calls module).map (fun call_str => call_str ++ "(&result_object);")
  let g1 :=
    if calls.length > 0 then
      { g with buffer := g.buffer ++ [.module_test module calls] }
    else g
  { g1 with module_calls := fun m => if m = module then [] else g1.module_calls m }

/-- The fixture-string escaping applied to the wat text in `visit_module`
(spectests.rs:231): indent four spaces, escape backslashes and quotes. -/
def escape_module_str (s : String) : String :=
  ((s.replace "\n" "\n    ").replace "\\" "\\\\").replace "\"" "\\\""

section Generator

-- `f32_debug` / `f64_debug`: the `{:?}` (Debug) decimal rendering of a
-- *finite* f32/f64, keyed by its bit pattern. External Rust
-- standard-library behaviour, kept abstract as a section parameter; no
-- claim under study depends on its output.
variable (f32_debug : Nat → String) (f64_debug : Nat → String)

/-- `wabt2rust_value` (spectests.rs:94): Rust source literal for a value.
Integers print via `{:?}` (decimal, possibly negative) with a width cast;
floats check `is_infinite` first (named constants), then `is_nan`
(`from_bits` of the exact bit pattern), else the Debug decimal with a
width cast. -/
def wabt2rust_value (v : Value) : String :=
  match v with
  | .I32 v => toString v ++ " as i32"
  | .I64 v => toString v ++ " as i64"
  | .F32 b =>
    if f32_is_infinite b then
      if f32_is_sign_negative b then "f32::NEG_INFINITY" else "f32::INFINITY"
    else if f32_is_nan b then
      "f32::from_bits(" ++ toString b ++ ")"
    else
      f32_debug b ++ " as f32"
  | .F64 b =>
    if f64_is_infinite b then
      if f64_is_sign_negative b then "f64::NEG_INFINITY" else "f64::INFINITY"
    else if f64_is_nan b then
      "f64::from_bits(" ++ toString b ++ ")"
    else
      f64_debug b ++ " as f64"

-- `wasm2wat`: the external binary-to-text module translator (wabt), kept
-- abstract as a section parameter.
variable (wasm2wat : List Nat → String)

/-- `visit_module` (spectests.rs:215): flush the pre-increment module,
increment `last_module`, emit the fixture constructor and the start
function for the new module, and register the start call as the new
module's first pending call. -/
def visit_module (g : WastTestGenerator) (module : List Nat)
    (_name : Option String) : WastTestGenerator :=
  let wast_string := wasm2wat module
  let g := flush_module_calls g g.last_module
  let g := { g with last_module := g.last_module + 1 }
  let g := { g with buffer :=
      g.buffer ++ [BufferItem.create_module g.last_module (escape_module_str wast_string)] }
  let start_module_call := "start_module_" ++ toString g.last_module
  let g := { g with buffer := g.buffer ++ [BufferItem.start_module_fn g.last_module] }
  push_module_call g g.last_module start_module_call

/-- `visit_assert_invalid` (spectests.rs:256): standalone compile-must-fail
test over the raw binary. -/
def visit_assert_invalid (g : WastTestGenerator) (module : List Nat) :
    WastTestGenerator :=
  { g with buffer := g.buffer ++ [.assert_invalid_test g.command_name module] }

/-- `visit_assert_malformed` (spectests.rs:388): standalone
compile-must-fail test over the raw binary. -/
def visit_assert_malformed (g : WastTestGenerator) (module : List Nat) :
    WastTestGenerator :=
  { g with buffer := g.buffer ++ [.assert_malformed_test g.command_name module] }

/-- `visit_assert_return_arithmetic_nan` (spectests.rs:279). The return
type is taken from the first argument (`args[0]`; Rust would panic on an
empty argument list, a case this directive never produces). Non-`Invoke`
actions fall through unchanged. -/
def visit_assert_return_arithmetic_nan (g : WastTestGenerator)
    (action : Action) : WastTestGenerator :=
  match action with
  | .Invoke _ field args =>
    let return_type := wabt2rust_type args.headI
    let func_return := " -> " ++ return_type
    let assertion := "assert!(result.is_quiet_nan())"
    let args_types := args.map wabt2rust_type ++ ["&Instance"]
    let args_values :=
      args.map (wabt2rust_value f32_debug f64_debug) ++ ["&result_object.instance"]
    let func_name := g.command_name ++ "_assert_return_arithmetic_nan"
    let g := { g with buffer :=
        g.buffer ++ [.invoke_fn func_name field args_types func_return args_values assertion] }
    push_module_call g g.last_module func_name
  | _ => g

/-- `visit_assert_return_canonical_nan` (spectests.rs:333). The return
type is taken from the first argument, except that the two named
conversion exports use the opposite width. -/
def visit_assert_return_canonical_nan (g : WastTestGenerator)
    (action : Action) : WastTestGenerator :=
  match action with
  | .Invoke _ field args =>
    let return_type :=
      if field = "f64.promote_f32" then "f64"
      else if field = "f32.promote_f64" then "f32"
      else wabt2rust_type args.headI
    let func_return := " -> " ++ return_type
    let assertion := "assert!(result.is_quiet_nan())"
    let args_types := args.map wabt2rust_type ++ ["&Instance"]
    let args_values :=
      args.map (wabt2rust_value f32_debug f64_debug) ++ ["&result_object.instance"]
    let func_name := g.command_name ++ "_assert_return_canonical_nan"
    let g := { g with buffer :=
        g.buffer ++ [.invoke_fn func_name field args_types func_return args_values assertion] }
    push_module_call g g.last_module func_name
  | _ => g

/-- `visit_action` (spectests.rs:411): emit the invoke function for an
`Invoke` action and return its name; non-`Invoke` actions emit nothing and
return `none`. With an expected-value list, the return type and the
expected literal come from the first expected value (empty list: no return
type, unit expected); the assertion is NaN-plus-sign-bit when the first
expected value is NaN, plain equality otherwise. -/
def visit_action (g : WastTestGenerator) (action : Action)
    (expected : Option (List Value)) : WastTestGenerator × Option String :=
  match action with
  | .Invoke _ field args =>
    let fra : String × String :=
      match expected with
      | some expected =>
        let func_return :=
          match expected with
          | [] => ""
          | v :: _ => " -> " ++ wabt2rust_type v
        let expected_result :=
          match expected with
          | [] => "()"
          | v :: _ => wabt2rust_value f32_debug f64_debug v
        let assertion :=
          match expected with
          | v :: _ =>
            if is_nan v then
              "assert!(result.is_nan());\n            assert_eq!(result.is_sign_positive(), ("
                ++ expected_result ++ ").is_sign_positive());"
            else
              "assert_eq!(result, " ++ expected_result ++ ");"
          | [] => "assert_eq!(result, " ++ expected_result ++ ");"
        (func_return, assertion)
      | none => ("", "")
    let args_types := args.map wabt2rust_type ++ ["&Instance"]
    let args_values :=
      args.map (wabt2rust_value f32_debug f64_debug) ++ ["&result_object.instance"]
    let func_name := g.command_name ++ "_action_invoke"
    ({ g with buffer :=
        g.buffer ++ [.invoke_fn func_name field args_types fra.1 args_values fra.2] },
      some func_name)
  | _ => (g, none)

/-- `visit_assert_return` (spectests.rs:481): emit the invoke function and
append its name to the current module's pending calls. -/
def visit_assert_return (g : WastTestGenerator) (action : Action)
    (expected : List Value) : WastTestGenerator :=
  let r := visit_action f32_debug f64_debug g action (some expected)
  match r.2 with
  | none => r.1
  | some action_fn_name => push_module_call r.1 r.1.last_module action_fn_name

/-- `visit_perform_action` (spectests.rs:493): like `visit_assert_return`
with no expected values. -/
def visit_perform_action (g : WastTestGenerator) (action : Action) :
    WastTestGenerator :=
  let r := visit_action f32_debug f64_debug g action none
  match r.2 with
  | none => r.1
  | some action_fn_name => push_module_call r.1 r.1.last_module action_fn_name

/-- `visit_assert_trap` (spectests.rs:505): emit the invoke function, then
a standalone `#[test]` that creates its own instance of the current module
and asserts the guarded call errors. The trap test's name is *not* added
to `module_calls` (the push is commented out in the source). -/
def visit_assert_trap (g : WastTestGenerator) (action : Action) :
    WastTestGenerator :=
  let r := visit_action f32_debug f64_debug g action none
  match r.2 with
  | none => r.1
  | some action_fn_name =>
    let trap_func_name := r.1.command_name ++ "_assert_trap"
    { r.1 with buffer :=
        r.1.buffer ++ [.trap_test trap_func_name r.1.last_module action_fn_name] }

/-- `visit_command` (spectests.rs:536): dispatch on the directive kind.
`AssertUninstantiable`, `AssertExhaustion`, `AssertUnlinkable` and
`Register` do nothing. -/
def visit_command (g : WastTestGenerator) (cmd : CommandKind) : WastTestGenerator :=
  match cmd with
  | .Module module name => visit_module wasm2wat g module name
  | .AssertReturn action expected =>
      visit_assert_return f32_debug f64_debug g action expected
  | .AssertReturnCanonicalNan action =>
      visit_assert_return_canonical_nan f32_debug f64_debug g action
  | .AssertReturnArithmeticNan action =>
      visit_assert_return_arithmetic_nan f32_debug f64_debug g action
  | .AssertTrap action _message => visit_assert_trap f32_debug f64_debug g action
  | .AssertInvalid module _message => visit_assert_invalid g module
  | .AssertMalformed module _message => visit_assert_malformed g module
  | .AssertUninstantiable _module _message => g
  | .AssertExhaustion _action => g
  | .AssertUnlinkable _module _message => g
  | .Register _name _as_name => g
  | .PerformAction action => visit_perform_action f32_debug f64_debug g action

/-- Body of the `while let` loop in `consume` (spectests.rs:172): record
the directive's line, emit the line marker, dispatch, then increment
`command_no`. -/
def consume_step (g : WastTestGenerator) (cmd : Nat × CommandKind) :
    WastTestGenerator :=
  let g := { g with last_line := cmd.1, buffer := g.buffer ++ [.line_marker cmd.1] }
  let g := visit_command f32_debug f64_debug wasm2wat g cmd.2
  { g with command_no := g.command_no + 1 }

/-- The trailing flush loop of `consume` (spectests.rs:179):
`for n in 1..last_module + 1 { flush_module_calls(n) }`. -/
def flush_all (g : WastTestGenerator) : WastTestGenerator :=
  ((List.range g.last_module).map (· + 1)).foldl flush_module_calls g

/-- `consume` (spectests.rs:155): emit banner and header, process every
directive of the parsed stream in order, then flush modules
`1..=last_module`. -/
def consume (g : WastTestGenerator) (cmds : List (Nat × CommandKind)) :
    WastTestGenerator :=
  let g := { g with buffer := g.buffer ++ [.banner, .header g.filename] }
  flush_all (cmds.foldl (consume_step f32_debug f64_debug wasm2wat) g)

/-- Outcome of `wast_to_rust` for one input file: the content written to
the per-file output path (`none` would mean no write occurred), plus the
returned pair `(script_name, command_no)`. -/
structure WastToRustOutcome where
  output_write : Option (List BufferItem)
  script_name : String
  command_no : Nat
  deriving DecidableEq, Repr

/-- `wast_to_rust` (spectests.rs:590): panics when the file stem is
`_common`; otherwise runs the generator over the parsed directive stream
and writes the finished buffer to the per-file output path
*unconditionally* — the mtime-based `_should_modify` flag the source
computes (spectests.rs:606) is dead code (never read), and the
pre-existing on-disk content (`_existing_output`, `none` when the output
file does not exist) is never consulted. -/
def wast_to_rust (script_name filename : String)
    (cmds : List (Nat × CommandKind))
    (_existing_output : Option (List BufferItem)) :
    Except String WastToRustOutcome :=
  if script_name = "_common" then
    .error "_common is a reserved name for the _common module. Please use other name for the spectest."
  else
    let generator :=
      consume f32_debug f64_debug wasm2wat (WastTestGenerator.new filename) cmds
    .ok { output_write := some generator.buffer
          script_name := script_name
          command_no := generator.command_no }

end Generator

/-- `BANNER` (spectests.rs:10). -/
def BANNER : String :=
  "// Rust test file autogenerated with cargo build (build/spectests.rs).\n// Please do NOT modify it by hand, as it will be reseted on next build.\n"

/-- The per-file manifest entry of `build` (spectests.rs:635): a module
whose directive count exceeds 200 is gated behind a
`cfg(not(feature = "fast-tests"))` attribute line; otherwise a plain
`mod` line. -/
def manifest_entry (module_name : String) (number_commands : Nat) : String :=
  if number_commands > 200 then
    "#[cfg(not(feature = \"fast-tests\"))]\nmod " ++ module_name ++ ";"
  else
    "mod " ++ module_name ++ ";"

/-- The manifest (`src/spectests/mod.rs`) content assembled by `build`
(spectests.rs:630-651) from each file's `(module_name, number_commands)`
result: the entry list with the banner inserted at index 0 and the
hand-written `_common` module line at index 1, a trailing empty line,
joined with newlines. -/
def mk_modfile (results : List (String × Nat)) : String :=
  let modules := results.map (fun r => manifest_entry r.1 r.2)
  let modules :=
    BANNER ::
      "// The _common module is not autogenerated, as it provides common functions for the spectests\nmod _common;" ::
        (modules ++ [""])
  String.intercalate "\n" modules

/-- The manifest write decision of `build` (spectests.rs:652-656): the
manifest is rewritten only when the existing on-disk content differs from
the assembled content. Returns the content written, `none` when no write
occurs. -/
def build_modfile_write (results : List (String × Nat)) (source : String) :
    Option String :=
  let modfile := mk_modfile results
  if source = modfile then none else some modfile

/-- Numeric value of a decimal digit character (used to decode the decimal
renderings inside generated identifiers). -/
def charVal (c : Char) : Nat := c.toNat - 48

/-- Value of a most-significant-digit-first decimal digit string. -/
def digitsVal : List Char → Nat
  | [] => 0
  | c :: cs => charVal c * 10 ^ cs.length + digitsVal cs

/-- Concrete generated buffer for a run over the empty directive stream of
`nop.wast` with trivial collaborator stubs (used to exercise the per-file
write behaviour at a point where the on-disk content already matches). -/
def nop_empty_buffer : List BufferItem :=
  (consume (fun _ => "") (fun _ => "") (fun _ => "")
    (WastTestGenerator.new "nop.wast") []).buffer

end Spectests

open Spectests

/-! ### State-component lemmas for the generator -/

theorem push_module_call_module_calls (g : WastTestGenerator) (m : Nat)
    (c : String) (k : Nat) :
    (push_module_call g m c).module_calls k =
      if k = m then g.module_calls k ++ [c] else g.module_calls k := rfl

theorem flush_module_calls_module_calls (g : WastTestGenerator) (m k : Nat) :
    (flush_module_calls g m).module_calls k =
      if k = m then [] else g.module_calls k := by
  simp only [flush_module_calls]
  by_cases h : k = m <;> simp [h]
  split <;> rfl

theorem flush_module_calls_command_no (g : WastTestGenerator) (m : Nat) :
    (flush_module_calls g m).command_no = g.command_no := by
  simp only [flush_module_calls]
  split <;> rfl

theorem flush_module_calls_last_module (g : WastTestGenerator) (m : Nat) :
    (flush_module_calls g m).last_module = g.last_module := by
  simp only [flush_module_calls]
  split <;> rfl

theorem flush_module_calls_last_line (g : WastTestGenerator) (m : Nat) :
    (flush_module_calls g m).last_line = g.last_line := by
  simp only [flush_module_calls]
  split <;> rfl

theorem flush_module_calls_buffer (g : WastTestGenerator) (m : Nat) :
    (flush_module_calls g m).buffer =
      g.buffer ++
        (if ((g.module_calls m).map (fun s => s ++ "(&result_object);")).length > 0 then
          [BufferItem.module_test m
            ((g.module_calls m).map (fun s => s ++ "(&result_object);"))]
        else []) := by
  simp only [flush_module_calls]
  split <;> simp_all

/-! ### `visit_*` component lemmas -/

theorem visit_module_command_no (w2w : List Nat → String) (g : WastTestGenerator)
    (mo : List Nat) (nm : Option String) :
    (visit_module w2w g mo nm).command_no = g.command_no :=
  flush_module_calls_command_no g g.last_module

theorem visit_module_last_line (w2w : List Nat → String) (g : WastTestGenerator)
    (mo : List Nat) (nm : Option String) :
    (visit_module w2w g mo nm).last_line = g.last_line :=
  flush_module_calls_last_line g g.last_module

theorem visit_module_last_module (w2w : List Nat → String) (g : WastTestGenerator)
    (mo : List Nat) (nm : Option String) :
    (visit_module w2w g mo nm).last_module = g.last_module + 1 := by
  show (flush_module_calls g g.last_module).last_module + 1 = g.last_module + 1
  rw [flush_module_calls_last_module]

theorem visit_module_module_calls (w2w : List Nat → String) (g : WastTestGenerator)
    (mo : List Nat) (nm : Option String) (k : Nat) :
    (visit_module w2w g mo nm).module_calls k =
      if k = g.last_module + 1 then
        g.module_calls k ++ ["start_module_" ++ toString (g.last_module + 1)]
      else if k = g.last_module then [] else g.module_calls k := by
  simp only [visit_module, push_module_call, flush_module_calls_last_module,
    flush_module_calls_module_calls]
  by_cases h1 : k = g.last_module + 1
  · subst h1
    simp [Nat.succ_ne_self]
  · simp [h1]

theorem visit_module_buffer (w2w : List Nat → String) (g : WastTestGenerator)
    (mo : List Nat) (nm : Option String) :
    (visit_module w2w g mo nm).buffer =
      g.buffer ++
        (if ((g.module_calls g.last_module).map (fun s => s ++ "(&result_object);")).length > 0
         then [BufferItem.module_test g.last_module
                ((g.module_calls g.last_module).map (fun s => s ++ "(&result_object);"))]
         else []) ++
        [BufferItem.create_module (g.last_module + 1) (escape_module_str (w2w mo)),
         BufferItem.start_module_fn (g.last_module + 1)] := by
  simp only [visit_module, push_module_call, flush_module_calls_last_module,
    flush_module_calls_buffer]
  simp [List.append_assoc]

theorem visit_action_fst_command_no (fd32 fd64 : Nat → String)
    (g : WastTestGenerator) (a : Action) (e : Option (List Value)) :
    (visit_action fd32 fd64 g a e).1.command_no = g.command_no := by
  cases a <;> rfl

theorem visit_action_fst_last_module (fd32 fd64 : Nat → String)
    (g : WastTestGenerator) (a : Action) (e : Option (List Value)) :
    (visit_action fd32 fd64 g a e).1.last_module = g.last_module := by
  cases a <;> rfl

theorem visit_action_fst_module_calls (fd32 fd64 : Nat → String)
    (g : WastTestGenerator) (a : Action) (e : Option (List Value)) :
    (visit_action fd32 fd64 g a e).1.module_calls = g.module_calls := by
  cases a <;> rfl

theorem visit_command_command_no (fd32 fd64 : Nat → String)
    (w2w : List Nat → String) (g : WastTestGenerator) (cmd : CommandKind) :
    (visit_command fd32 fd64 w2w g cmd).command_no = g.command_no := by
  cases cmd with
  | Module mo nm => exact visit_module_command_no w2w g mo nm
  | AssertReturn a e => cases a <;> rfl
  | AssertReturnCanonicalNan a => cases a <;> rfl
  | AssertReturnArithmeticNan a => cases a <;> rfl
  | AssertTrap a msg => cases a <;> rfl
  | PerformAction a => cases a <;> rfl
  | _ => rfl

theorem visit_command_last_line (fd32 fd64 : Nat → String)
    (w2w : List Nat → String) (g : WastTestGenerator) (cmd : CommandKind) :
    (visit_command fd32 fd64 w2w g cmd).last_line = g.last_line := by
  cases cmd with
  | Module mo nm => exact visit_module_last_line w2w g mo nm
  | AssertReturn a e => cases a <;> rfl
  | AssertReturnCanonicalNan a => cases a <;> rfl
  | AssertReturnArithmeticNan a => cases a <;> rfl
  | AssertTrap a msg => cases a <;> rfl
  | PerformAction a => cases a <;> rfl
  | _ => rfl

/-- `isModuleDef`: is the directive a `ModuleDefinition`? -/
def isModuleDef : CommandKind → Bool
  | .Module _ _ => true
  | _ => false

theorem visit_command_last_module_of_not_module (fd32 fd64 : Nat → String)
    (w2w : List Nat → String) (g : WastTestGenerator) (cmd : CommandKind)
    (h : isModuleDef cmd = false) :
    (visit_command fd32 fd64 w2w g cmd).last_module = g.last_module := by
  cases cmd with
  | Module mo nm => simp [isModuleDef] at h
  | AssertReturn a e => cases a <;> rfl
  | AssertReturnCanonicalNan a => cases a <;> rfl
  | AssertReturnArithmeticNan a => cases a <;> rfl
  | AssertTrap a msg => cases a <;> rfl
  | PerformAction a => cases a <;> rfl
  | _ => rfl

/-! ### Fold lemmas for the flush loop and `consume` -/

theorem foldl_flush_module_calls_module_calls (l : List Nat)
    (g : WastTestGenerator) (k : Nat) :
    (l.foldl flush_module_calls g).module_calls k =
      if k ∈ l then [] else g.module_calls k := by
  induction l generalizing g with
  | nil => simp
  | cons m l ih =>
    simp only [List.foldl_cons, ih, flush_module_calls_module_calls]
    by_cases hk : k ∈ l
    · simp [hk]
    · by_cases hkm : k = m <;> simp [hk, hkm]

theorem foldl_flush_module_calls_last_module (l : List Nat)
    (g : WastTestGenerator) :
    (l.foldl flush_module_calls g).last_module = g.last_module := by
  induction l generalizing g with
  | nil => rfl
  | cons m l ih => simp only [List.foldl_cons, ih, flush_module_calls_last_module]

theorem foldl_flush_module_calls_command_no (l : List Nat)
    (g : WastTestGenerator) :
    (l.foldl flush_module_calls g).command_no = g.command_no := by
  induction l generalizing g with
  | nil => rfl
  | cons m l ih => simp only [List.foldl_cons, ih, flush_module_calls_command_no]

theorem flush_all_module_calls (g : WastTestGenerator) (k : Nat) :
    (flush_all g).module_calls k =
      if 1 ≤ k ∧ k ≤ g.last_module then [] else g.module_calls k := by
  rw [flush_all, foldl_flush_module_calls_module_calls]
  have : k ∈ (List.range g.last_module).map (· + 1) ↔ 1 ≤ k ∧ k ≤ g.last_module := by
    simp only [List.mem_map, List.mem_range]
    constructor
    · rintro ⟨i, hi, rfl⟩; omega
    · rintro ⟨h1, h2⟩; exact ⟨k - 1, by omega, by omega⟩
  by_cases h : 1 ≤ k ∧ k ≤ g.last_module
  · rw [if_pos (this.mpr h), if_pos h]
  · rw [if_neg (fun hc => h (this.mp hc)), if_neg h]

theorem flush_all_last_module (g : WastTestGenerator) :
    (flush_all g).last_module = g.last_module :=
  foldl_flush_module_calls_last_module _ g

theorem flush_all_command_no (g : WastTestGenerator) :
    (flush_all g).command_no = g.command_no :=
  foldl_flush_module_calls_command_no _ g

theorem consume_step_command_no (fd32 fd64 : Nat → String)
    (w2w : List Nat → String) (g : WastTestGenerator) (c : Nat × CommandKind) :
    (consume_step fd32 fd64 w2w g c).command_no = g.command_no + 1 := by
  show (visit_command fd32 fd64 w2w _ c.2).command_no + 1 = g.command_no + 1
  rw [visit_command_command_no]

theorem foldl_consume_step_command_no (fd32 fd64 : Nat → String)
    (w2w : List Nat → String) (cmds : List (Nat × CommandKind))
    (g : WastTestGenerator) :
    (cmds.foldl (consume_step fd32 fd64 w2w) g).command_no =
      g.command_no + cmds.length := by
  induction cmds generalizing g with
  | nil => rfl
  | cons c cmds ih =>
    simp only [List.foldl_cons, ih, consume_step_command_no, List.length_cons]
    omega

theorem consume_command_no (fd32 fd64 : Nat → String) (w2w : List Nat → String)
    (g : WastTestGenerator) (cmds : List (Nat × CommandKind)) :
    (consume fd32 fd64 w2w g cmds).command_no = g.command_no + cmds.length := by
  show (flush_all _).command_no = g.command_no + cmds.length
  rw [flush_all_command_no, foldl_consume_step_command_no]

theorem consume_last_module (fd32 fd64 : Nat → String) (w2w : List Nat → String)
    (g : WastTestGenerator) (cmds : List (Nat × CommandKind)) :
    (consume fd32 fd64 w2w g cmds).last_module =
      (cmds.foldl (consume_step fd32 fd64 w2w)
        { g with buffer := g.buffer ++ [.banner, .header g.filename] }).last_module := by
  show (flush_all _).last_module = _
  rw [flush_all_last_module]

theorem consume_module_calls_flushed (fd32 fd64 : Nat → String)
    (w2w : List Nat → String) (g : WastTestGenerator)
    (cmds : List (Nat × CommandKind)) (n : Nat) (h1 : 1 ≤ n)
    (h2 : n ≤ (consume fd32 fd64 w2w g cmds).last_module) :
    (consume fd32 fd64 w2w g cmds).module_calls n = [] := by
  rw [consume_last_module] at h2
  show (flush_all _).module_calls n = []
  rw [flush_all_module_calls]
  simp only [h1, h2, and_self, if_true]

/-! ### Claim theorems -/

/-- C2: NaN-valued floats format as `from_bits` of their exact raw bit
pattern (so evaluating the literal reproduces the bit pattern, including
non-canonical payloads), and infinite floats format as the named signed
infinity constant of the matching width. -/
theorem C2_nan_inf_literals (fd32 fd64 : Nat → String) (b32 b64 : Nat)
    (h32 : b32 < 2 ^ 32) (h64 : b64 < 2 ^ 64) :
    (Spectests.f32_is_nan b32 = true →
      Spectests.wabt2rust_value fd32 fd64 (.F32 b32) =
        "f32::from_bits(" ++ toString b32 ++ ")" ∧
      Spectests.f32_from_bits_to_bits b32 = b32) ∧
    (Spectests.f64_is_nan b64 = true →
      Spectests.wabt2rust_value fd32 fd64 (.F64 b64) =
        "f64::from_bits(" ++ toString b64 ++ ")" ∧
      Spectests.f64_from_bits_to_bits b64 = b64) ∧
    (Spectests.f32_is_infinite b32 = true →
      Spectests.wabt2rust_value fd32 fd64 (.F32 b32) =
        if Spectests.f32_is_sign_negative b32 then "f32::NEG_INFINITY"
        else "f32::INFINITY") ∧
    (Spectests.f64_is_infinite b64 = true →
      Spectests.wabt2rust_value fd32 fd64 (.F64 b64) =
        if Spectests.f64_is_sign_negative b64 then "f64::NEG_INFINITY"
        else "f64::INFINITY") := by
  refine ⟨fun hn => ⟨?_, Nat.mod_eq_of_lt h32⟩, fun hn => ⟨?_, Nat.mod_eq_of_lt h64⟩,
    fun hi => ?_, fun hi => ?_⟩
  · have hni : Spectests.f32_is_infinite b32 = false := by
      simp only [Spectests.f32_is_nan, Bool.and_eq_true, beq_iff_eq, bne_iff_ne] at hn
      simp [Spectests.f32_is_infinite, hn.1, hn.2]
    simp [Spectests.wabt2rust_value, hni, hn]
  · have hni : Spectests.f64_is_infinite b64 = false := by
      simp only [Spectests.f64_is_nan, Bool.and_eq_true, beq_iff_eq, bne_iff_ne] at hn
      simp [Spectests.f64_is_infinite, hn.1, hn.2]
    simp [Spectests.wabt2rust_value, hni, hn]
  · simp [Spectests.wabt2rust_value, hi]
  · simp [Spectests.wabt2rust_value, hi]

/-- C2 witness: the 32-bit non-canonical NaN `0x7fc00001` formats to
`f32::from_bits(2143289345)` and that expression's bits are `0x7fc00001`;
the 64-bit sign-negative NaN `0xfff8000000000001` likewise; and the f32
infinities render as the named constants. -/
theorem C2_nan_inf_literals_witness :
    (Spectests.wabt2rust_value (fun _ => "") (fun _ => "") (.F32 0x7fc00001) =
      "f32::from_bits(" ++ toString (0x7fc00001 : Nat) ++ ")" ∧
     Spectests.f32_from_bits_to_bits 0x7fc00001 = 0x7fc00001) ∧
    (Spectests.wabt2rust_value (fun _ => "") (fun _ => "") (.F64 0xfff8000000000001) =
      "f64::from_bits(" ++ toString (0xfff8000000000001 : Nat) ++ ")" ∧
     Spectests.f64_from_bits_to_bits 0xfff8000000000001 = 0xfff8000000000001) := by
  have h := C2_nan_inf_literals (fun _ => "") (fun _ => "")
    0x7fc00001 0xfff8000000000001 (by norm_num) (by norm_num)
  exact ⟨h.1 (by decide), h.2.1 (by decide)⟩

/-- C9: for the five action-carrying directive kinds, a non-`Invoke`
action (wabt's `Get`) produces no test function and leaves the generator
state — in particular the buffer beyond the dispatcher's line marker and
`module_calls` — completely unchanged: the directive is silently skipped. -/
theorem C9_non_invoke_silently_skipped (fd32 fd64 : Nat → String)
    (w2w : List Nat → String) (g : WastTestGenerator) (am : Option String)
    (f msg : String) (expected : List Value) :
    visit_command fd32 fd64 w2w g (.AssertReturn (.Get am f) expected) = g ∧
    visit_command fd32 fd64 w2w g (.PerformAction (.Get am f)) = g ∧
    visit_command fd32 fd64 w2w g (.AssertTrap (.Get am f) msg) = g ∧
    visit_command fd32 fd64 w2w g (.AssertReturnCanonicalNan (.Get am f)) = g ∧
    visit_command fd32 fd64 w2w g (.AssertReturnArithmeticNan (.Get am f)) = g :=
  ⟨rfl, rfl, rfl, rfl, rfl⟩

/-- C10: a script file whose stem is exactly `_common` makes generation
abort with the reserved-name panic before any output is produced. -/
theorem C10_common_stem_panics (fd32 fd64 : Nat → String)
    (w2w : List Nat → String) (fname : String)
    (cmds : List (Nat × CommandKind)) (existing : Option (List BufferItem)) :
    wast_to_rust fd32 fd64 w2w "_common" fname cmds existing =
      .error "_common is a reserved name for the _common module. Please use other name for the spectest." :=
  rfl

/-- C7: for an `AssertReturnCanonicalNaN` directive with an `Invoke`
action, the emitted function's return-type annotation is the type of the
first argument, except that export `f64.promote_f32` is annotated `f64`
and `f32.promote_f64` is annotated `f32`; the emitted assertion is the
result-is-NaN check `assert!(result.is_quiet_nan())`. -/
theorem C7_canonical_nan_return_type (fd32 fd64 : Nat → String)
    (g : WastTestGenerator) (am : Option String) (field : String)
    (a : Value) (rest : List Value) :
    visit_assert_return_canonical_nan fd32 fd64 g (.Invoke am field (a :: rest)) =
      push_module_call
        { g with buffer := g.buffer ++
            [.invoke_fn (g.command_name ++ "_assert_return_canonical_nan") field
              ((a :: rest).map wabt2rust_type ++ ["&Instance"])
              (" -> " ++
                (if field = "f64.promote_f32" then "f64"
                 else if field = "f32.promote_f64" then "f32"
                 else wabt2rust_type a))
              ((a :: rest).map (wabt2rust_value fd32 fd64) ++ ["&result_object.instance"])
              "assert!(result.is_quiet_nan())"] }
        g.last_module (g.command_name ++ "_assert_return_canonical_nan") :=
  rfl

/-- C6: for an `AssertReturn` whose first expected value is a NaN-valued
float, the emitted assertion checks that the result is NaN and that its
sign bit matches the expected value's, not raw equality; for a non-NaN
first expected value it is plain equality against the formatted literal. -/
theorem C6_assert_return_nan_assertion (fd32 fd64 : Nat → String)
    (w2w : List Nat → String) (g : WastTestGenerator) (am : Option String)
    (f : String) (args : List Value) (e : Value) (rest : List Value) :
    visit_action fd32 fd64 g (.Invoke am f args) (some (e :: rest)) =
      ({ g with buffer := g.buffer ++
          [.invoke_fn (g.command_name ++ "_action_invoke") f
            (args.map wabt2rust_type ++ ["&Instance"])
            (" -> " ++ wabt2rust_type e)
            (args.map (wabt2rust_value fd32 fd64) ++ ["&result_object.instance"])
            (if is_nan e then
              "assert!(result.is_nan());\n            assert_eq!(result.is_sign_positive(), ("
                ++ wabt2rust_value fd32 fd64 e ++ ").is_sign_positive());"
            else
              "assert_eq!(result, " ++ wabt2rust_value fd32 fd64 e ++ ");")] },
        some (g.command_name ++ "_action_invoke")) ∧
    (visit_command fd32 fd64 w2w g (.AssertReturn (.Invoke am f args) (e :: rest))).buffer =
      g.buffer ++
        [.invoke_fn (g.command_name ++ "_action_invoke") f
          (args.map wabt2rust_type ++ ["&Instance"])
          (" -> " ++ wabt2rust_type e)
          (args.map (wabt2rust_value fd32 fd64) ++ ["&result_object.instance"])
          (if is_nan e then
            "assert!(result.is_nan());\n            assert_eq!(result.is_sign_positive(), ("
              ++ wabt2rust_value fd32 fd64 e ++ ").is_sign_positive());"
          else
            "assert_eq!(result, " ++ wabt2rust_value fd32 fd64 e ++ ");")] :=
  ⟨rfl, rfl⟩

/-- C6 witness: an expected 64-bit NaN with bits `0xfff8000000000001`
produces the NaN-and-sign-bit assertion over the `from_bits`
reconstruction, not raw equality. -/
theorem C6_assert_return_nan_assertion_witness :
    (visit_action (fun _ => "") (fun _ => "") (WastTestGenerator.new "f64_.wast")
        (.Invoke none "f" []) (some [.F64 0xfff8000000000001])).1.buffer =
      [.invoke_fn "c0_l0_action_invoke" "f" ["&Instance"] " -> f64"
        ["&result_object.instance"]
        ("assert!(result.is_nan());\n            assert_eq!(result.is_sign_positive(), (f64::from_bits(" ++ toString (0xfff8000000000001 : Nat) ++ ")).is_sign_positive());")] := by
  rw [(C6_assert_return_nan_assertion (fun _ => "") (fun _ => "") (fun _ => "")
    (WastTestGenerator.new "f64_.wast") none "f" [] (.F64 0xfff8000000000001) []).1]
  decide

/-- C7 witness: the two named conversion exports flip the annotation
(`f64.promote_f32` ↦ `f64`, `f32.promote_f64` ↦ `f32`), while any other
export takes the first argument's type. -/
theorem C7_canonical_nan_return_type_witness :
    (visit_assert_return_canonical_nan (fun _ => "") (fun _ => "")
        (WastTestGenerator.new "conversions.wast")
        (.Invoke none "f64.promote_f32" [.F32 0x7fc00000])).buffer =
      [.invoke_fn "c0_l0_assert_return_canonical_nan" "f64.promote_f32"
        ["f32", "&Instance"] " -> f64"
        ["f32::from_bits(" ++ toString (0x7fc00000 : Nat) ++ ")", "&result_object.instance"]
        "assert!(result.is_quiet_nan())"] := by
  rw [C7_canonical_nan_return_type (fun _ => "") (fun _ => "")
    (WastTestGenerator.new "conversions.wast") none "f64.promote_f32"
    (.F32 0x7fc00000) []]
  decide


/-- C3: an `AssertTrap` directive never adds to `module_calls`; with an
`Invoke` action it emits the invoke function plus a standalone test that
creates its own instance of the current module (`create_module_N` with the
current `last_module`) and asserts the guarded call errors; and a stream
of one module followed by one `AssertTrap` yields exactly two tests: the
standalone trap test and the module's aggregated test containing only the
start call. -/
theorem C3_assert_trap_standalone (fd32 fd64 : Nat → String)
    (w2w : List Nat → String) (g : WastTestGenerator) (a : Action)
    (msg f : String) (am : Option String) (args : List Value) :
    (visit_command fd32 fd64 w2w g (.AssertTrap a msg)).module_calls =
      g.module_calls ∧
    visit_assert_trap fd32 fd64 g (.Invoke am f args) =
      { g with buffer := g.buffer ++
          [.invoke_fn (g.command_name ++ "_action_invoke") f
            (args.map wabt2rust_type ++ ["&Instance"]) ""
            (args.map (wabt2rust_value fd32 fd64) ++ ["&result_object.instance"]) "",
           .trap_test (g.command_name ++ "_assert_trap") g.last_module
            (g.command_name ++ "_action_invoke")] } ∧
    ((consume (fun _ => "") (fun _ => "") (fun _ => "")
        (WastTestGenerator.new "traps.wast")
        [(1, .Module [] none),
         (2, .AssertTrap (.Invoke none "f" []) "m")]).buffer.filter
        BufferItem.isTest) =
      [.trap_test "c1_l2_assert_trap" 1 "c1_l2_action_invoke",
       .module_test 1 ["start_module_1(&result_object);"]] := by
  refine ⟨by cases a <;> rfl, ?_, by decide⟩
  simp [visit_assert_trap, visit_action, WastTestGenerator.command_name]

/-- C4: a `ModuleDefinition` directive increases `last_module` by exactly
1; the pre-increment module's pending calls are flushed first — its
`module_calls` entry is emptied and, when nonempty, its aggregated test is
emitted into the buffer *before* the new module's fixture — no other
directive kind changes `last_module`; and at end-of-stream `consume`
leaves every index `1..=last_module` flushed. -/
theorem C4_module_increment_and_flush (fd32 fd64 : Nat → String)
    (w2w : List Nat → String) (g : WastTestGenerator) (bin : List Nat)
    (bname : Option String) (cmd : CommandKind)
    (cmds : List (Nat × CommandKind)) (n : Nat) :
    (visit_command fd32 fd64 w2w g (.Module bin bname)).last_module =
      g.last_module + 1 ∧
    (visit_command fd32 fd64 w2w g (.Module bin bname)).module_calls
      g.last_module = [] ∧
    (visit_command fd32 fd64 w2w g (.Module bin bname)).buffer =
      g.buffer ++
        (if ((g.module_calls g.last_module).map (fun s => s ++ "(&result_object);")).length > 0
         then [BufferItem.module_test g.last_module
                ((g.module_calls g.last_module).map (fun s => s ++ "(&result_object);"))]
         else []) ++
        [BufferItem.create_module (g.last_module + 1) (escape_module_str (w2w bin)),
         BufferItem.start_module_fn (g.last_module + 1)] ∧
    (isModuleDef cmd = false →
      (visit_command fd32 fd64 w2w g cmd).last_module = g.last_module) ∧
    (1 ≤ n → n ≤ (consume fd32 fd64 w2w g cmds).last_module →
      (consume fd32 fd64 w2w g cmds).module_calls n = []) := by
  refine ⟨visit_module_last_module w2w g bin bname, ?_,
    visit_module_buffer w2w g bin bname,
    visit_command_last_module_of_not_module fd32 fd64 w2w g cmd,
    fun h1 h2 => consume_module_calls_flushed fd32 fd64 w2w g cmds n h1 h2⟩
  show (visit_module w2w g bin bname).module_calls g.last_module = []
  rw [visit_module_module_calls]
  simp

/-- C4 witness: one `Module` directive takes `last_module` from 0 to 1; a
`Register` directive leaves it unchanged; and after consuming a stream
with one module, module 1's pending-call entry is flushed empty. -/
theorem C4_module_increment_and_flush_witness :
    (visit_command (fun _ => "") (fun _ => "") (fun _ => "")
      (WastTestGenerator.new "nop.wast") (.Module [] none)).last_module = 1 ∧
    (visit_command (fun _ => "") (fun _ => "") (fun _ => "")
      (WastTestGenerator.new "nop.wast") (.Register none "x")).last_module = 0 ∧
    (consume (fun _ => "") (fun _ => "") (fun _ => "")
      (WastTestGenerator.new "nop.wast") [(1, .Module [] none)]).module_calls 1 = [] := by
  have h := C4_module_increment_and_flush (fun _ => "") (fun _ => "") (fun _ => "")
    (WastTestGenerator.new "nop.wast") [] none (.Register none "x")
    [(1, .Module [] none)] 1
  exact ⟨h.1, h.2.2.2.1 (by decide), h.2.2.2.2 (by decide) (by decide)⟩

/-- C8: the manifest entry for a file is the conditionally-excluded form
(`cfg(not(feature = "fast-tests"))`) exactly when the file's directive
count exceeds 200, and the plain unconditional `mod` line otherwise; the
generator's returned `command_no` equals the directive count. -/
theorem C8_manifest_threshold (fd32 fd64 : Nat → String)
    (w2w : List Nat → String) (name fname : String)
    (cmds : List (Nat × CommandKind)) :
    (manifest_entry name
        ((consume fd32 fd64 w2w (WastTestGenerator.new fname) cmds).command_no) =
      "#[cfg(not(feature = \"fast-tests\"))]\nmod " ++ name ++ ";" ↔
      200 < cmds.length) ∧
    (cmds.length ≤ 200 →
      manifest_entry name
          ((consume fd32 fd64 w2w (WastTestGenerator.new fname) cmds).command_no) =
        "mod " ++ name ++ ";") := by
  rw [consume_command_no]
  have hz : (WastTestGenerator.new fname).command_no = 0 := rfl
  rw [hz, Nat.zero_add]
  constructor
  · constructor
    · intro he
      by_contra hle
      rw [manifest_entry, if_neg (by omega)] at he
      have := congrArg String.data he
      simp [String.data_append] at this
    · intro hgt
      rw [manifest_entry, if_pos hgt]
  · intro hle
    rw [manifest_entry, if_neg (by omega)]

/-- C8 witness: a file with 250 directives is marked conditionally
excluded from the default (`fast-tests`) build; a file with 50 directives
is included unconditionally. -/
theorem C8_manifest_threshold_witness :
    manifest_entry "float_exprs"
        ((consume (fun _ => "") (fun _ => "") (fun _ => "")
          (WastTestGenerator.new "float_exprs.wast")
          (List.replicate 250 (0, CommandKind.Register none "x"))).command_no) =
      "#[cfg(not(feature = \"fast-tests\"))]\nmod float_exprs;" ∧
    manifest_entry "nop"
        ((consume (fun _ => "") (fun _ => "") (fun _ => "")
          (WastTestGenerator.new "nop.wast")
          (List.replicate 50 (0, CommandKind.Register none "x"))).command_no) =
      "mod nop;" := by
  have h1 := C8_manifest_threshold (fun _ => "") (fun _ => "") (fun _ => "")
    "float_exprs" "float_exprs.wast" (List.replicate 250 (0, CommandKind.Register none "x"))
  have h2 := C8_manifest_threshold (fun _ => "") (fun _ => "") (fun _ => "")
    "nop" "nop.wast" (List.replicate 50 (0, CommandKind.Register none "x"))
  exact ⟨(h1.1.mpr (by rw [List.length_replicate]; omega)).trans (by decide),
    (h2.2 (by rw [List.length_replicate]; omega)).trans (by decide)⟩

/-- C1 counterexample: even when the on-disk per-file output is
byte-identical to the newly generated content, `wast_to_rust` still
performs the write — the generated content is written unconditionally
(`output_write` is `some …`, not `none`), refuting the claim that no
write occurs when contents match. -/
theorem C1_write_on_change_counterexample :
    wast_to_rust (fun _ => "") (fun _ => "") (fun _ => "") "nop" "nop.wast" []
        (some nop_empty_buffer) =
      .ok { output_write := some nop_empty_buffer
            script_name := "nop"
            command_no := 0 } ∧
    some nop_empty_buffer ≠ (none : Option (List BufferItem)) :=
  ⟨rfl, by simp⟩

/-- C1 amended: the per-file output is written unconditionally — the
result never depends on the pre-existing on-disk content — while the
manifest is rewritten exactly when its assembled content differs from the
existing content. -/
theorem C1_manifest_write_on_change (fd32 fd64 : Nat → String)
    (w2w : List Nat → String) (sname fname : String)
    (cmds : List (Nat × CommandKind))
    (existing existing' : Option (List BufferItem))
    (results : List (String × Nat)) (source : String)
    (h : sname ≠ "_common") :
    wast_to_rust fd32 fd64 w2w sname fname cmds existing =
      .ok { output_write :=
              some (consume fd32 fd64 w2w (WastTestGenerator.new fname) cmds).buffer
            script_name := sname
            command_no :=
              (consume fd32 fd64 w2w (WastTestGenerator.new fname) cmds).command_no } ∧
    wast_to_rust fd32 fd64 w2w sname fname cmds existing =
      wast_to_rust fd32 fd64 w2w sname fname cmds existing' ∧
    (build_modfile_write results source = none ↔ source = mk_modfile results) := by
  refine ⟨by simp [wast_to_rust, h], rfl, ?_⟩
  rw [build_modfile_write]
  split
  · simp_all
  · simp_all

/-- C1 amended witness: a fresh generation of `nop.wast` writes the
generated buffer, and a manifest whose on-disk content already equals the
assembled content is not rewritten. -/
theorem C1_manifest_write_on_change_witness :
    wast_to_rust (fun _ => "") (fun _ => "") (fun _ => "") "nop" "nop.wast" [] none =
      .ok { output_write := some nop_empty_buffer
            script_name := "nop"
            command_no := 0 } ∧
    build_modfile_write [("nop", 50)] (mk_modfile [("nop", 50)]) = none := by
  have h := C1_manifest_write_on_change (fun _ => "") (fun _ => "") (fun _ => "")
    "nop" "nop.wast" [] none (some []) [("nop", 50)] (mk_modfile [("nop", 50)])
    (by decide)
  exact ⟨h.1, h.2.2.mpr rfl⟩

/-! ### Decimal rendering: decode lemmas for identifier uniqueness -/

theorem charVal_digitChar (m : Nat) (h : m < 10) :
    charVal (Nat.digitChar m) = m := by
  interval_cases m <;> rfl

theorem digitChar_isDigit (m : Nat) (h : m < 10) :
    (Nat.digitChar m).isDigit = true := by
  interval_cases m <;> rfl

theorem digitsVal_toDigitsCore :
    ∀ (f n : Nat) (acc : List Char), n < 10 ^ f →
      digitsVal (Nat.toDigitsCore 10 f n acc) =
        n * 10 ^ acc.length + digitsVal acc := by
  intro f
  induction f with
  | zero =>
    intro n acc h
    simp only [pow_zero, Nat.lt_one_iff] at h
    subst h
    simp [Nat.toDigitsCore, digitsVal]
  | succ f ih =>
    intro n acc h
    show digitsVal (if n / 10 = 0 then Nat.digitChar (n % 10) :: acc
        else Nat.toDigitsCore 10 f (n / 10) (Nat.digitChar (n % 10) :: acc)) = _
    by_cases h0 : n / 10 = 0
    · rw [if_pos h0, digitsVal, charVal_digitChar _ (Nat.mod_lt _ (by norm_num))]
      have hn : n % 10 = n := by omega
      rw [hn]
    · have hlt : n / 10 < 10 ^ f := by
        have h' : n < 10 ^ f * 10 := by rw [← pow_succ]; exact h
        exact (Nat.div_lt_iff_lt_mul (by norm_num)).mpr h'
      rw [if_neg h0, ih (n / 10) _ hlt, digitsVal,
        charVal_digitChar _ (Nat.mod_lt _ (by norm_num))]
      have hn := Nat.div_add_mod n 10
      conv_rhs => rw [← hn]
      simp only [List.length_cons, pow_succ]
      ring

theorem toDigitsCore_isDigit :
    ∀ (f n : Nat) (acc : List Char), (∀ c ∈ acc, c.isDigit = true) →
      ∀ c ∈ Nat.toDigitsCore 10 f n acc, c.isDigit = true := by
  intro f
  induction f with
  | zero => intro n acc hacc; simpa [Nat.toDigitsCore] using hacc
  | succ f ih =>
    intro n acc hacc c hc
    rw [show Nat.toDigitsCore 10 (f + 1) n acc =
        if n / 10 = 0 then Nat.digitChar (n % 10) :: acc
        else Nat.toDigitsCore 10 f (n / 10) (Nat.digitChar (n % 10) :: acc)
      from rfl] at hc
    by_cases h0 : n / 10 = 0
    · rw [if_pos h0] at hc
      rcases List.mem_cons.mp hc with rfl | hmem
      · exact digitChar_isDigit _ (Nat.mod_lt _ (by norm_num))
      · exact hacc c hmem
    · rw [if_neg h0] at hc
      refine ih (n / 10) _ ?_ c hc
      intro c' hc'
      rcases List.mem_cons.mp hc' with rfl | hmem
      · exact digitChar_isDigit _ (Nat.mod_lt _ (by norm_num))
      · exact hacc c' hmem

theorem natRepr_data_val (n : Nat) : digitsVal (Nat.repr n).data = n := by
  have h1 : n < 10 ^ (n + 1) :=
    lt_of_lt_of_le (Nat.lt_pow_self (by norm_num) n)
      (Nat.pow_le_pow_right (by norm_num) (Nat.le_succ n))
  have h2 := digitsVal_toDigitsCore (n + 1) n [] h1
  show digitsVal (Nat.toDigitsCore 10 (n + 1) n []) = n
  rw [h2]
  simp [digitsVal]

theorem natRepr_data_isDigit (n : Nat) :
    ∀ c ∈ (Nat.repr n).data, c.isDigit = true := by
  show ∀ c ∈ Nat.toDigitsCore 10 (n + 1) n [], c.isDigit = true
  exact toDigitsCore_isDigit (n + 1) n [] (by simp)

theorem append_sep_left_inj {sep : Char} :
    ∀ (xs ys us vs : List Char), (∀ c ∈ xs, c ≠ sep) → (∀ c ∈ ys, c ≠ sep) →
      xs ++ sep :: us = ys ++ sep :: vs → xs = ys := by
  intro xs
  induction xs with
  | nil =>
    intro ys us vs _ hy h
    cases ys with
    | nil => rfl
    | cons y ys' =>
      simp only [List.nil_append, List.cons_append, List.cons.injEq] at h
      exact absurd h.1.symm (hy y (List.mem_cons_self y ys'))
  | cons x xs' ih =>
    intro ys us vs hx hy h
    cases ys with
    | nil =>
      simp only [List.nil_append, List.cons_append, List.cons.injEq] at h
      exact absurd h.1 (hx x (List.mem_cons_self x xs'))
    | cons y ys' =>
      simp only [List.cons_append, List.cons.injEq] at h
      rw [h.1, ih ys' us vs (fun c hc => hx c (List.mem_cons_of_mem x hc))
        (fun c hc => hy c (List.mem_cons_of_mem y hc)) h.2]

theorem isDigit_ne_underscore {c : Char} (h : c.isDigit = true) : c ≠ '_' := by
  rintro rfl
  exact absurd h (by decide)

theorem command_name_inj (g1 g2 : WastTestGenerator)
    (h : g1.command_no ≠ g2.command_no) :
    g1.command_name ≠ g2.command_name := by
  intro he
  apply h
  have hd0 : String.data g1.command_name = String.data g2.command_name :=
    congrArg String.data he
  simp only [WastTestGenerator.command_name, String.data_append] at hd0
  have ht : ∀ n : Nat, (toString n : String) = Nat.repr n := fun _ => rfl
  rw [ht, ht, ht, ht] at hd0
  simp only [List.cons_append, List.nil_append] at hd0
  injection hd0 with hhead htail
  have htail' : (Nat.repr g1.command_no).data ++
        '_' :: 'l' :: (Nat.repr g1.last_line).data =
      (Nat.repr g2.command_no).data ++
        '_' :: 'l' :: (Nat.repr g2.last_line).data := by
    simpa using htail
  have hx := @append_sep_left_inj '_'
    (Nat.repr g1.command_no).data (Nat.repr g2.command_no).data _ _
    (fun c hc => isDigit_ne_underscore (natRepr_data_isDigit _ c hc))
    (fun c hc => isDigit_ne_underscore (natRepr_data_isDigit _ c hc)) htail'
  have hv := congrArg digitsVal hx
  rwa [natRepr_data_val, natRepr_data_val] at hv

/-- C5: every directive — of any kind, including those that emit nothing —
leaves `command_no` untouched in dispatch and increments it by exactly 1
per consumed directive, so over a whole file `command_no` grows by the
directive count; and the derived identifier `c{command_no}_l{last_line}`
is injective in `command_no`, hence unique per file even when directives
share a line or module. -/
theorem C5_command_no_and_identifier (fd32 fd64 : Nat → String)
    (w2w : List Nat → String) (g g1 g2 : WastTestGenerator)
    (cmd : CommandKind) (c : Nat × CommandKind)
    (cmds : List (Nat × CommandKind))
    (h : g1.command_no ≠ g2.command_no) :
    (visit_command fd32 fd64 w2w g cmd).command_no = g.command_no ∧
    (consume_step fd32 fd64 w2w g c).command_no = g.command_no + 1 ∧
    (consume fd32 fd64 w2w g cmds).command_no = g.command_no + cmds.length ∧
    g1.command_name ≠ g2.command_name :=
  ⟨visit_command_command_no fd32 fd64 w2w g cmd,
   consume_step_command_no fd32 fd64 w2w g c,
   consume_command_no fd32 fd64 w2w g cmds,
   command_name_inj g1 g2 h⟩

/-- C5 witness: one consumed directive takes `command_no` from 0 to 1, and
the identifiers `c1_l25` and `c12_l5` — a near-collision across different
lines — are distinct because the embedded `command_no` differs. -/
theorem C5_command_no_and_identifier_witness :
    (consume_step (fun _ => "") (fun _ => "") (fun _ => "")
      (WastTestGenerator.new "nop.wast") (7, CommandKind.Register none "x")).command_no = 1 ∧
    ({ WastTestGenerator.new "a.wast" with
        command_no := 1, last_line := 25 } : WastTestGenerator).command_name ≠
      ({ WastTestGenerator.new "a.wast" with
          command_no := 12, last_line := 5 } : WastTestGenerator).command_name := by
  have h := C5_command_no_and_identifier (fun _ => "") (fun _ => "") (fun _ => "")
    (WastTestGenerator.new "nop.wast")
    { WastTestGenerator.new "a.wast" with command_no := 1, last_line := 25 }
    { WastTestGenerator.new "a.wast" with command_no := 12, last_line := 5 }
    (CommandKind.Register none "x") (7, CommandKind.Register none "x") []
    (by decide)
  exact ⟨h.2.1, h.2.2.2⟩
